import Mathlib

/-!
Shallow embedding of the per-image detection display logic of
`app.py` (plant_disease_detector): the static `DISEASE_INFO` table,
the per-detection label/box computation (lines 108-122), the
deduplicating `detected_diseases` set (lines 106, 114, 127-128), the
per-image response handling (lines 102-135), and the per-upload
try/except session loop (lines 84-140).
Coordinates and confidences are modelled as rationals.
-/

namespace PlantDisease

/-- One entry of the static `DISEASE_INFO` dictionary (app.py lines 8-25). -/
structure DiseaseRecord where
  name : String
  description : String
deriving DecidableEq

/-- The `DISEASE_INFO` record for key "0". -/
def leafSpot : DiseaseRecord :=
  ⟨"Leaf Spot",
   "Dark circular or irregular spots on leaves caused by fungal infection. Remove affected leaves and apply appropriate fungicides."⟩

/-- The `DISEASE_INFO` record for key "1". -/
def powderyMildew : DiseaseRecord :=
  ⟨"Powdery Mildew",
   "White powdery fungal growth on leaves and stems. Use sulfur-based fungicides or neem oil spray for control."⟩

/-- The `DISEASE_INFO` record for key "2". -/
def rust : DiseaseRecord :=
  ⟨"Rust",
   "Orange to reddish pustules on leaf undersides caused by rust fungus. Improve air circulation and apply fungicides."⟩

/-- The `DISEASE_INFO` record for key "3". -/
def blight : DiseaseRecord :=
  ⟨"Blight",
   "Rapid browning and death of leaf tissue, usually due to bacterial or fungal infection. Remove infected plants and use copper-based sprays."⟩

/-- The static lookup table `DISEASE_INFO` (app.py lines 8-25), an association
list keyed by the string-encoded class identifier. -/
def DISEASE_INFO : List (String × DiseaseRecord) :=
  [("0", leafSpot), ("1", powderyMildew), ("2", rust), ("3", blight)]

/-- A Python value that may sit in a detection's `class_id` field: the API can
send an integer or a string; `str()` is applied before the table lookup
(app.py line 110). -/
inductive PyVal where
  | vint : Int → PyVal
  | vstr : String → PyVal
deriving DecidableEq

/-- Python `str()` on a `class_id` value. -/
def pyStr : PyVal → String
  | .vint n => toString n
  | .vstr s => s

/-- One detection dictionary as returned by the hosted workflow.  Every field
is optional because the code accesses `x`, `y`, `width`, `height` with raising
indexing and `class_id`, `confidence` with defaulting `.get`. -/
structure Pred where
  x? : Option ℚ := none
  y? : Option ℚ := none
  width? : Option ℚ := none
  height? : Option ℚ := none
  class_id? : Option PyVal := none
  confidence? : Option ℚ := none
deriving DecidableEq

/-- Floor of a rational, via floor division of numerator by denominator. -/
def ratFloor (q : ℚ) : Int := Int.fdiv q.num (q.den : Int)

/-- Round a rational to the nearest integer with ties to even, the rounding
used by Python float formatting on the exact value. -/
def roundHalfEven (q : ℚ) : Int :=
  let f := ratFloor q
  let r := q - (f : ℚ)
  if r < 1/2 then f
  else if 1/2 < r then f + 1
  else if f % 2 = 0 then f else f + 1

/-- Python format specifier `.1f`: fixed-point with one decimal place. -/
def fmt1 (v : ℚ) : String :=
  let n := roundHalfEven (v * 10)
  let sgn := if n < 0 then "-" else ""
  sgn ++ toString (n.natAbs / 10) ++ "." ++ toString (n.natAbs % 10)

/-- `DISEASE_INFO.get(class_id, {})` (app.py lines 112-113): association-list
lookup returning `none` for an unknown key. -/
def lookupInfo (class_id : String) : Option DiseaseRecord :=
  (DISEASE_INFO.find? (fun kv => kv.1 == class_id)).map Prod.snd

/-- `str(pred.get("class_id", ""))` (app.py line 110). -/
def predClassId (p : Pred) : String := pyStr (p.class_id?.getD (PyVal.vstr ""))

/-- `pred.get("confidence", 0)` (app.py line 111). -/
def predConfidence (p : Pred) : ℚ := p.confidence?.getD 0

/-- `DISEASE_INFO.get(class_id, {}).get("name", "Unknown")` (app.py line 112). -/
def predName (p : Pred) : String :=
  match lookupInfo (predClassId p) with
  | some r => r.name
  | none => "Unknown"

/-- `DISEASE_INFO.get(class_id, {}).get("description", "No description available.")`
(app.py line 113). -/
def predDesc (p : Pred) : String :=
  match lookupInfo (predClassId p) with
  | some r => r.description
  | none => "No description available."

/-- The `(disease_name, disease_desc, confidence)` triple added to
`detected_diseases` (app.py line 114). -/
abbrev DiseaseTriple := String × String × ℚ

/-- The triple a detection contributes to `detected_diseases`. -/
def tripleOf (p : Pred) : DiseaseTriple := (predName p, predDesc p, predConfidence p)

/-- `label = f"{disease_name} ({confidence*100:.1f}%)"` (app.py line 116). -/
def predLabel (p : Pred) : String :=
  predName p ++ " (" ++ fmt1 (predConfidence p * 100) ++ "%)"

/-- One drawing call issued onto the image: `draw.rectangle` with two corner
points, outline colour and stroke width, or `draw.text` with a position, the
text and a fill colour (app.py lines 117-122). -/
inductive DrawOp where
  | rect : ℚ × ℚ → ℚ × ℚ → String → Nat → DrawOp
  | text : ℚ × ℚ → String → String → DrawOp
deriving DecidableEq

/-- One iteration of the detection loop body (app.py lines 108-122) for a
single `pred`.  The raising accesses `pred["x"]`, `pred["y"]`,
`pred["width"]`, `pred["height"]` are evaluated in source order; the first
missing key raises `KeyError`.  On success it yields the triple added to
`detected_diseases` and the two drawing calls. -/
def processPred (p : Pred) : Except String (DiseaseTriple × List DrawOp) :=
  match p.x?, p.y?, p.width?, p.height? with
  | some x, some y, some w, some h =>
      .ok (tripleOf p,
        [DrawOp.rect (x - w/2, y - h/2) (x + w/2, y + h/2) "#8B0000" 4,
         DrawOp.text (x - w/2, y - h/2 - 20) (predLabel p) "#8B0000"])
  | none, _, _, _ => .error "KeyError: x"
  | some _, none, _, _ => .error "KeyError: y"
  | some _, some _, none, _ => .error "KeyError: width"
  | some _, some _, some _, none => .error "KeyError: height"

deriving instance DecidableEq for Except

/-- `true` exactly when a loop body or loop run succeeds without raising. -/
def exOk {α : Type} : Except String α → Bool
  | .ok _ => true
  | .error _ => false

/-- Python `set.add` on the insertion-ordered model of `detected_diseases`:
adding an element already present by value equality changes nothing. -/
def setAdd (s : List DiseaseTriple) (t : DiseaseTriple) : List DiseaseTriple :=
  if t ∈ s then s else s ++ [t]

/-- The whole detection loop (app.py lines 108-122): folds the loop body over
the detections, accumulating the `detected_diseases` set and the issued
drawing calls; a `KeyError` raised by any iteration propagates and aborts the
loop. -/
def renderLoop : List Pred → List DiseaseTriple → List DrawOp →
    Except String (List DiseaseTriple × List DrawOp)
  | [], acc, ops => .ok (acc, ops)
  | p :: rest, acc, ops =>
    match processPred p with
    | .error e => .error e
    | .ok (t, newOps) => renderLoop rest (setAdd acc t) (ops ++ newOps)

/-- The drawing calls a single detection contributes (empty when its loop
iteration raises). -/
def predOps (p : Pred) : List DrawOp :=
  match processPred p with
  | .ok (_, ops) => ops
  | .error _ => []

/-- The value of the outer `"predictions"` key of `result[0]`, itself a
dictionary that may carry an inner `"predictions"` key holding the detection
list. -/
structure PredHolder where
  inner? : Option (List Pred)
deriving DecidableEq

/-- One element of the workflow response list `result`. -/
structure ApiItem where
  predHolder? : Option PredHolder
deriving DecidableEq

/-- The shape test of app.py line 102,
`result and "predictions" in result[0] and "predictions" in result[0]["predictions"]`,
followed by `detections = result[0]["predictions"]["predictions"]` (line 103):
`none` when the response is falsy or a key is missing. -/
def parseDetections : List ApiItem → Option (List Pred)
  | [] => none
  | item :: _ =>
    match item.predHolder? with
    | none => none
    | some holder => holder.inner?

/-- The user-visible outcome of processing one uploaded image. -/
inductive Outcome where
  | annotated : List DiseaseTriple → List DrawOp → Outcome
  | healthy : Outcome
  | invalidResponse : Outcome
  | invalidImage : Outcome
  | inferenceError : String → Outcome
deriving DecidableEq

/-- How `Image.open(...).convert("RGB")` behaves on one upload:
success, `UnidentifiedImageError`, or some other exception. -/
inductive ImageLoad where
  | ok : ImageLoad
  | unidentified : ImageLoad
  | failure : String → ImageLoad
deriving DecidableEq

/-- How `client.run_workflow` behaves on one image: a response value or a
raised exception. -/
inductive InferenceResult where
  | ok : List ApiItem → InferenceResult
  | raise : String → InferenceResult
deriving DecidableEq

/-- What one trip through the per-image loop body did: the outcome shown to
the user, whether the temporary image file was created, and whether
`os.remove(temp_image_path)` (app.py line 135) ran. -/
structure ImageRun where
  outcome : Outcome
  tempCreated : Bool
  tempRemoved : Bool
deriving DecidableEq

/-- The body of the per-upload loop (app.py lines 86-140) for one image:
open the image, write the temporary file, call the workflow, branch on the
response shape and on emptiness of the detections, run the detection loop,
remove the temporary file on the normal path; `UnidentifiedImageError` and
any other exception are caught and shown as errors, skipping `os.remove`. -/
def processImage (load : ImageLoad) (inf : InferenceResult) : ImageRun :=
  match load with
  | .unidentified => ⟨.invalidImage, false, false⟩
  | .failure m => ⟨.inferenceError m, false, false⟩
  | .ok =>
    match inf with
    | .raise m => ⟨.inferenceError m, true, false⟩
    | .ok items =>
      match parseDetections items with
      | none => ⟨.invalidResponse, true, true⟩
      | some [] => ⟨.healthy, true, true⟩
      | some (d :: ds) =>
        match renderLoop (d :: ds) [] [] with
        | .error e => ⟨.inferenceError e, true, false⟩
        | .ok (ts, ops) => ⟨.annotated ts ops, true, true⟩

/-- Outcomes reached through the `except` handlers (app.py lines 137-140),
i.e. via a raised exception. -/
def isException : Outcome → Bool
  | .invalidImage => true
  | .inferenceError _ => true
  | _ => false

/-- Outcomes that are user-visible errors or warnings rather than results. -/
def isError : Outcome → Bool
  | .invalidImage => true
  | .inferenceError _ => true
  | .invalidResponse => true
  | _ => false

/-- The human-readable message shown for an error outcome (app.py lines 133,
138, 140); `none` for the successful outcomes. -/
def userMessage : Outcome → Option String
  | .invalidImage => some "❌ The uploaded file is not a valid image."
  | .inferenceError m => some ("❌ Error during inference: " ++ m)
  | .invalidResponse => some "⚠️ Could not get a valid response. Please try again."
  | _ => none

/-- The whole multi-upload session (app.py lines 83-140): each uploaded file
is processed by the loop body in order, independently of the others. -/
def processSession (uploads : List (ImageLoad × InferenceResult)) : List ImageRun :=
  uploads.map (fun u => processImage u.1 u.2)

/-- The example detection of the specification:
`{x:100, y:100, width:40, height:40, class_id:1, confidence:0.87}`. -/
def examplePred : Pred :=
  { x? := some 100, y? := some 100, width? := some 40, height? := some 40,
    class_id? := some (PyVal.vint 1), confidence? := some (87/100) }

/-- A detection with all four coordinates, a known class and a confidence. -/
def goodPred : Pred :=
  { x? := some 50, y? := some 60, width? := some 10, height? := some 20,
    class_id? := some (PyVal.vint 0), confidence? := some (9/10) }

/-- A malformed detection: its `x` field is missing. -/
def badPred : Pred :=
  { y? := some 5, width? := some 6, height? := some 7,
    class_id? := some (PyVal.vint 2), confidence? := some (1/2) }

/-- A well-formed response whose detection list contains a malformed record. -/
def badItems : List ApiItem := [⟨some ⟨some [goodPred, badPred]⟩⟩]

/-- A well-formed response with an empty detection list. -/
def emptyItems : List ApiItem := [⟨some ⟨some []⟩⟩]

/-- A detection with coordinates but no `confidence` field. -/
def noConfPred : Pred :=
  { x? := some 1, y? := some 2, width? := some 3, height? := some 4,
    class_id? := some (PyVal.vint 1) }

/-- A detection whose class identifier is not a key of `DISEASE_INFO`. -/
def unknownPred : Pred :=
  { x? := some 10, y? := some 10, width? := some 2, height? := some 2,
    class_id? := some (PyVal.vint 7), confidence? := some (1/2) }

/-- A detection carrying its class identifier as the integer 2. -/
def intPred : Pred := { class_id? := some (PyVal.vint 2) }

/-- A detection carrying its class identifier as the string "2". -/
def strPred : Pred := { class_id? := some (PyVal.vstr "2") }

/-- A detection with no `class_id` field at all. -/
def noClassPred : Pred := {}

/- Helper lemmas about the detection loop. -/

lemma mem_setAdd {s : List DiseaseTriple} {t t' : DiseaseTriple} :
    t' ∈ setAdd s t ↔ t' ∈ s ∨ t' = t := by
  unfold setAdd
  split
  · rename_i hmem
    constructor
    · exact Or.inl
    · rintro (h | rfl)
      · exact h
      · exact hmem
  · simp

lemma setAdd_nodup {s : List DiseaseTriple} (t : DiseaseTriple) (h : s.Nodup) :
    (setAdd s t).Nodup := by
  unfold setAdd
  split
  · exact h
  · rename_i hmem
    simp [List.nodup_append, h, hmem]

lemma processPred_ok_triple {p : Pred} {t : DiseaseTriple} {ops : List DrawOp}
    (h : processPred p = .ok (t, ops)) : t = tripleOf p := by
  unfold processPred at h
  split at h <;> simp_all

lemma processPred_ok_ops {p : Pred} {t : DiseaseTriple} {ops : List DrawOp}
    (h : processPred p = .ok (t, ops)) : predOps p = ops := by
  unfold predOps
  rw [h]

lemma renderLoop_spec (dets : List Pred) :
    ∀ (acc : List DiseaseTriple) (ops : List DrawOp)
      (ts : List DiseaseTriple) (os : List DrawOp),
      renderLoop dets acc ops = .ok (ts, os) →
      (acc.Nodup → ts.Nodup) ∧
      (∀ t, t ∈ ts ↔ t ∈ acc ∨ ∃ p ∈ dets, tripleOf p = t) ∧
      os = ops ++ (dets.map predOps).flatten := by
  induction dets with
  | nil =>
    intro acc ops ts os h
    simp only [renderLoop, Except.ok.injEq, Prod.mk.injEq] at h
    obtain ⟨rfl, rfl⟩ := h
    exact ⟨id, by simp, by simp⟩
  | cons p rest ih =>
    intro acc ops ts os h
    rw [renderLoop] at h
    cases hp : processPred p with
    | error e => rw [hp] at h; cases h
    | ok pr =>
      obtain ⟨t0, nops⟩ := pr
      rw [hp] at h
      obtain ⟨ih1, ih2, ih3⟩ := ih (setAdd acc t0) (ops ++ nops) ts os h
      have ht0 : t0 = tripleOf p := processPred_ok_triple hp
      refine ⟨fun hacc => ih1 (setAdd_nodup t0 hacc), fun t => ?_, ?_⟩
      · rw [ih2 t, mem_setAdd, ht0]
        simp only [List.mem_cons]
        constructor
        · rintro ((h | rfl) | ⟨q, hq, rfl⟩)
          · exact Or.inl h
          · exact Or.inr ⟨p, Or.inl rfl, rfl⟩
          · exact Or.inr ⟨q, Or.inr hq, rfl⟩
        · rintro (h | ⟨q, (rfl | hq), rfl⟩)
          · exact Or.inl (Or.inl h)
          · exact Or.inl (Or.inr rfl)
          · exact Or.inr ⟨q, hq, rfl⟩
      · rw [ih3]
        simp only [List.map_cons, List.flatten_cons]
        rw [processPred_ok_ops hp, List.append_assoc]

lemma renderLoop_error_of_mem {dets : List Pred} {p : Pred}
    (hmem : p ∈ dets) (hbad : exOk (processPred p) = false) :
    ∀ acc ops, exOk (renderLoop dets acc ops) = false := by
  induction dets with
  | nil => cases hmem
  | cons q rest ih =>
    intro acc ops
    rw [renderLoop]
    cases hq : processPred q with
    | error e => rfl
    | ok pr =>
      obtain ⟨t0, nops⟩ := pr
      rcases List.mem_cons.mp hmem with rfl | hmem'
      · rw [hq] at hbad; cases hbad
      · exact ih hmem' _ _

/- Claim theorems. -/

/-- C1: for every detection whose string-encoded class identifier is a key of
the `DISEASE_INFO` table, the rendered label is the corresponding disease name
followed by the confidence times 100 formatted to one decimal place with a
percent sign; in particular the example detection
`{x:100, y:100, width:40, height:40, class_id:1, confidence:0.87}` gets the
label "Powdery Mildew (87.0%)". -/
theorem C1_label_known_key (p : Pred) (rec : DiseaseRecord)
    (hrec : lookupInfo (predClassId p) = some rec) :
    predLabel p = rec.name ++ " (" ++ fmt1 (predConfidence p * 100) ++ "%)" ∧
    predLabel examplePred = "Powdery Mildew (87.0%)" := by
  constructor
  · simp [predLabel, predName, hrec]
  · with_unfolding_all decide

/-- C1 witness: the example detection instantiates the hypothesis with the
"Powdery Mildew" record. -/
theorem C1_witness :
    lookupInfo (predClassId examplePred) = some powderyMildew ∧
    predLabel examplePred =
      powderyMildew.name ++ " (" ++ fmt1 (predConfidence examplePred * 100) ++ "%)" :=
  ⟨by decide, (C1_label_known_key examplePred powderyMildew (by decide)).1⟩

/-- C2: a detection whose class identifier is not a key of the table falls
back to name "Unknown" and the description "No description available.", and
its rendered label reads "Unknown (&lt;conf&gt;%)" with the confidence to one
decimal place. -/
theorem C2_unknown_key_fallback (p : Pred)
    (hnone : lookupInfo (predClassId p) = none) :
    predName p = "Unknown" ∧
    predDesc p = "No description available." ∧
    predLabel p = "Unknown (" ++ fmt1 (predConfidence p * 100) ++ "%)" := by
  have h1 : predName p = "Unknown" := by simp [predName, hnone]
  refine ⟨h1, by simp [predDesc, hnone], ?_⟩
  unfold predLabel
  rw [h1]
  have hlit : ("Unknown" ++ " (" : String) = "Unknown (" := rfl
  rw [hlit]

/-- C2 witness: a detection with class identifier 7 is not in the table. -/
theorem C2_witness :
    predName unknownPred = "Unknown" ∧
    predDesc unknownPred = "No description available." ∧
    predLabel unknownPred = "Unknown (" ++ fmt1 (predConfidence unknownPred * 100) ++ "%)" :=
  C2_unknown_key_fallback unknownPred (by decide)

/-- C3: when the detection loop succeeds, the aggregated `detected_diseases`
set is exactly the set of distinct (name, description, confidence) triples
observed across the detections, with no triple appearing twice. -/
theorem C3_dedup_triples (dets : List Pred) (ts : List DiseaseTriple) (os : List DrawOp)
    (h : renderLoop dets [] [] = .ok (ts, os)) :
    ts.Nodup ∧ ∀ t, t ∈ ts ↔ ∃ p ∈ dets, tripleOf p = t := by
  obtain ⟨h1, h2, _⟩ := renderLoop_spec dets [] [] ts os h
  exact ⟨h1 List.nodup_nil, fun t => by simpa using h2 t⟩

/-- C3 witness: two identical detections contribute a single triple. -/
theorem C3_witness : ([tripleOf examplePred] : List DiseaseTriple).Nodup :=
  (C3_dedup_triples [examplePred, examplePred] [tripleOf examplePred]
    (predOps examplePred ++ predOps examplePred) (by with_unfolding_all decide)).1

/-- C4: a well-formed response whose detection list is empty produces the
"healthy" outcome, never an error outcome. -/
theorem C4_empty_is_healthy (items : List ApiItem)
    (h : parseDetections items = some []) :
    (processImage ImageLoad.ok (InferenceResult.ok items)).outcome = Outcome.healthy ∧
    isError (processImage ImageLoad.ok (InferenceResult.ok items)).outcome = false := by
  simp [processImage, h, isError]

/-- C4 witness: a concrete response with zero detections. -/
theorem C4_witness :
    (processImage ImageLoad.ok (InferenceResult.ok emptyItems)).outcome = Outcome.healthy ∧
    isError (processImage ImageLoad.ok (InferenceResult.ok emptyItems)).outcome = false :=
  C4_empty_is_healthy emptyItems (by decide)

/-- C5: an error while processing one image yields a human-readable
user-visible message for that image, and the session processes the remaining
images unchanged: the run of every other upload is exactly what it would have
been on its own. -/
theorem C5_error_isolated (us vs : List (ImageLoad × InferenceResult))
    (l : ImageLoad) (inf : InferenceResult)
    (herr : isError (processImage l inf).outcome = true) :
    (userMessage (processImage l inf).outcome).isSome = true ∧
    processSession (us ++ (l, inf) :: vs) =
      processSession us ++ processImage l inf :: processSession vs := by
  refine ⟨?_, by simp [processSession]⟩
  cases ho : (processImage l inf).outcome <;>
    rw [ho] at herr <;> simp [isError] at herr <;> simp [userMessage]

/-- C5 witness: a corrupted upload in mid-session. -/
theorem C5_witness :
    (userMessage (processImage ImageLoad.unidentified (InferenceResult.raise "x")).outcome).isSome
      = true ∧
    processSession ([(ImageLoad.ok, InferenceResult.ok emptyItems)] ++
        (ImageLoad.unidentified, InferenceResult.raise "x") ::
        [(ImageLoad.ok, InferenceResult.ok emptyItems)]) =
      processSession [(ImageLoad.ok, InferenceResult.ok emptyItems)] ++
        processImage ImageLoad.unidentified (InferenceResult.raise "x") ::
        processSession [(ImageLoad.ok, InferenceResult.ok emptyItems)] :=
  C5_error_isolated [(ImageLoad.ok, InferenceResult.ok emptyItems)]
    [(ImageLoad.ok, InferenceResult.ok emptyItems)]
    ImageLoad.unidentified (InferenceResult.raise "x") (by decide)

/-- C6 counterexample: a malformed detection record is NOT skipped: with a
well-formed detection followed by one missing `x`, the loop raises `KeyError`
and the image's outcome is an inference error, so the remaining well-formed
detection is not rendered or aggregated. -/
theorem C6_counterexample :
    processPred badPred = Except.error "KeyError: x" ∧
    renderLoop [goodPred, badPred] [] [] = Except.error "KeyError: x" ∧
    (processImage ImageLoad.ok (InferenceResult.ok badItems)).outcome =
      Outcome.inferenceError "KeyError: x" := by
  with_unfolding_all decide

/-- C6 amended: a malformed detection record (one missing `x`, `y`, `width` or
`height`) raises `KeyError`, aborting the detection loop for that image; the
per-image handler reports the image via an exception outcome, and no
detections of that image are rendered or aggregated. -/
theorem C6_malformed_aborts (items : List ApiItem) (dets : List Pred) (p : Pred)
    (hparse : parseDetections items = some dets) (hmem : p ∈ dets)
    (hbad : exOk (processPred p) = false) :
    exOk (renderLoop dets [] []) = false ∧
    isException (processImage ImageLoad.ok (InferenceResult.ok items)).outcome = true := by
  have h := renderLoop_error_of_mem hmem hbad [] []
  refine ⟨h, ?_⟩
  have hne : dets ≠ [] := by rintro rfl; cases hmem
  obtain ⟨d, ds, rfl⟩ := List.exists_cons_of_ne_nil hne
  cases hr : renderLoop (d :: ds) [] [] with
  | ok pr => rw [hr] at h; cases h
  | error e => simp [processImage, hparse, hr, isException]

/-- C6 witness: the concrete malformed record of the counterexample. -/
theorem C6_witness :
    exOk (renderLoop [goodPred, badPred] [] []) = false ∧
    isException (processImage ImageLoad.ok (InferenceResult.ok badItems)).outcome = true :=
  C6_malformed_aborts badItems [goodPred, badPred] badPred (by with_unfolding_all decide)
    (by with_unfolding_all decide) (by decide)

/-- C7: per well-formed detection the renderer issues exactly one rectangle
whose corners are (x - w/2, y - h/2) and (x + w/2, y + h/2) and exactly one
text label at the box's top-left region (20 pixels above the top-left
corner); over a whole successful loop, the issued drawing calls are exactly
the per-detection calls in order. -/
theorem C7_one_box_one_label (p : Pred) (x y w h : ℚ)
    (hx : p.x? = some x) (hy : p.y? = some y)
    (hw : p.width? = some w) (hh : p.height? = some h) :
    processPred p = Except.ok (tripleOf p,
      [DrawOp.rect (x - w/2, y - h/2) (x + w/2, y + h/2) "#8B0000" 4,
       DrawOp.text (x - w/2, y - h/2 - 20) (predLabel p) "#8B0000"]) ∧
    (∀ dets ts os, renderLoop dets [] [] = Except.ok (ts, os) →
      os = (dets.map predOps).flatten) := by
  constructor
  · simp [processPred, hx, hy, hw, hh]
  · intro dets ts os hr
    simpa using (renderLoop_spec dets [] [] ts os hr).2.2

/-- C7 witness: the example detection's box and label. -/
theorem C7_witness :
    processPred examplePred = Except.ok (tripleOf examplePred,
      [DrawOp.rect (100 - 40/2, 100 - 40/2) (100 + 40/2, 100 + 40/2) "#8B0000" 4,
       DrawOp.text (100 - 40/2, 100 - 40/2 - 20) (predLabel examplePred) "#8B0000"]) :=
  (C7_one_box_one_label examplePred 100 100 40 40 rfl rfl rfl rfl).1

/-- C8 counterexample: when the inference call raises after the temporary
file was created, the handler path skips `os.remove`, so the temporary file
outlives that image's processing: the claim's "deleted on any exit path"
fails. -/
theorem C8_counterexample :
    (processImage ImageLoad.ok (InferenceResult.raise "boom")).tempCreated = true ∧
    (processImage ImageLoad.ok (InferenceResult.raise "boom")).tempRemoved = false :=
  ⟨rfl, rfl⟩

/-- C8 amended: the temporary file is created exactly when the image opens
successfully, and it is removed exactly on the non-exception exit paths: on
the normal path after the response is handled it is deleted, while on any
exception path (inference failure or a rendering `KeyError`) `os.remove`
never runs, so a created file outlives its image's processing there. -/
theorem C8_temp_lifecycle (l : ImageLoad) (inf : InferenceResult) :
    (processImage l inf).tempRemoved = !isException (processImage l inf).outcome ∧
    (processImage l inf).tempCreated = decide (l = ImageLoad.ok) := by
  cases l with
  | unidentified => exact ⟨rfl, rfl⟩
  | failure m => exact ⟨rfl, rfl⟩
  | ok =>
    cases inf with
    | raise m => exact ⟨rfl, rfl⟩
    | ok items =>
      cases hp : parseDetections items with
      | none => simp [processImage, hp, isException]
      | some dets =>
        cases dets with
        | nil => simp [processImage, hp, isException]
        | cons d ds =>
          cases hr : renderLoop (d :: ds) [] [] with
          | error e => simp [processImage, hp, hr, isException]
          | ok pr =>
            obtain ⟨ts, ops⟩ := pr
            simp [processImage, hp, hr, isException]

/-- C9: a detection without a `confidence` field gets the default 0: its
label ends in "(0.0%)" and its aggregated triple carries confidence 0, and
(when its coordinates are present) the record is processed without error
rather than rejected. -/
theorem C9_default_confidence (p : Pred) (hc : p.confidence? = none) :
    predConfidence p = 0 ∧
    predLabel p = predName p ++ " (0.0%)" ∧
    tripleOf p = (predName p, predDesc p, 0) ∧
    (∀ x, p.x? = some x → ∀ y, p.y? = some y → ∀ w, p.width? = some w →
      ∀ h, p.height? = some h → exOk (processPred p) = true) := by
  have h0 : predConfidence p = 0 := by simp [predConfidence, hc]
  refine ⟨h0, ?_, by simp [tripleOf, h0], ?_⟩
  · unfold predLabel
    rw [h0]
    have hfmt : fmt1 ((0 : ℚ) * 100) = "0.0" := by with_unfolding_all decide
    rw [hfmt, String.append_assoc, String.append_assoc]
    exact congrArg (fun s => predName p ++ s) rfl
  · intro x hx y hy w hw h hh
    simp [processPred, hx, hy, hw, hh, exOk]

/-- C9 witness: a concrete detection lacking `confidence`. -/
theorem C9_witness :
    predConfidence noConfPred = 0 ∧
    predLabel noConfPred = predName noConfPred ++ " (0.0%)" :=
  ⟨(C9_default_confidence noConfPred rfl).1, (C9_default_confidence noConfPred rfl).2.1⟩

/-- C10: the table lookup is performed on `str(class_id)`: an integer class
identifier and its string encoding resolve to the same record, and a
detection with no `class_id` field resolves via the empty string to the
"Unknown" fallback. -/
theorem C10_str_encoding (n : Int) (p q r : Pred)
    (hp : p.class_id? = some (PyVal.vint n))
    (hq : q.class_id? = some (PyVal.vstr (toString n)))
    (hr : r.class_id? = none) :
    predClassId p = predClassId q ∧
    predName p = predName q ∧
    predDesc p = predDesc q ∧
    predClassId r = "" ∧
    predName r = "Unknown" ∧
    predDesc r = "No description available." := by
  have hpq : predClassId p = predClassId q := by simp [predClassId, hp, hq, pyStr]
  have hre : predClassId r = "" := by simp [predClassId, hr, pyStr]
  have hempty : lookupInfo "" = none := by decide
  exact ⟨hpq, by simp [predName, hpq], by simp [predDesc, hpq], hre,
    by simp [predName, hre, hempty], by simp [predDesc, hre, hempty]⟩

/-- C10 witness: integer 2 and string "2", and a record with no class
identifier. -/
theorem C10_witness :
    predClassId intPred = predClassId strPred ∧
    predName intPred = predName strPred ∧
    predDesc intPred = predDesc strPred ∧
    predClassId noClassPred = "" ∧
    predName noClassPred = "Unknown" ∧
    predDesc noClassPred = "No description available." :=
  C10_str_encoding 2 intPred strPred noClassPred rfl (by decide) rfl

end PlantDisease
